import Mathlib

/-!
Shallow embedding of the bwn_parser repository (src/main.py and
src/misc/crawler.py) and proofs about the behaviour its specification
describes.  Python functions are translated into executable Lean
definitions; raised exceptions become `Except` errors or explicit flags,
`None` becomes `Option.none`, and the network is abstracted as an
explicit schedule of per-attempt outcomes.
-/

namespace BwnParser

/-! ## Python string primitives

`pyLower` models Python `str.lower()` (ASCII case folding, which covers
every string the claims exercise), and `pyIn` models the Python
substring test `needle in hay`. -/

/-- Model of Python `str.lower()`: lower-case every character. -/
def pyLower (s : String) : String :=
  ⟨s.data.map Char.toLower⟩

/-- Boolean list-prefix test used to build the substring test. -/
def isPrefixOfB : List Char → List Char → Bool
  | [], _ => true
  | _ :: _, [] => false
  | a :: as, b :: bs => a == b && isPrefixOfB as bs

/-- Boolean substring occurrence test on character lists: does `needle`
occur contiguously inside `hay`?  The empty needle occurs everywhere,
matching Python. -/
def isSubstrOfB (needle : List Char) : List Char → Bool
  | [] => isPrefixOfB needle []
  | b :: bs => isPrefixOfB needle (b :: bs) || isSubstrOfB needle bs

/-- Model of Python `needle in hay` for strings. -/
def pyIn (needle hay : String) : Bool :=
  isSubstrOfB needle.data hay.data

/-! ## src/misc/crawler.py -/

/-- A proxy entry as built by `Proxy._prepare_proxy_list`: the same
connection string under the keys `http` and `https`. -/
structure ProxyEntry where
  http : String
  https : String
deriving DecidableEq, Repr

/-- Model of Python `str.split` with a one-character newline separator:
cut the character list at every newline.  Matches Python in yielding
`[""]` for the empty string and an empty trailing piece after a final
newline; the result is never the empty list. -/
def splitNl : List Char → List (List Char)
  | [] => [[]]
  | c :: cs =>
    match splitNl cs with
    | [] => [[]]
    | line :: rest =>
      if c = '\n' then [] :: line :: rest
      else (c :: line) :: rest

/-- Embedding of `Proxy._prepare_proxy_list`: split the proxy file's
text on newlines and wrap each line for the `requests` library.  The
Python body has no error path: `str.split` always returns at least one
element, so the resulting pool is never empty. -/
def prepare_proxy_list (fileContent : String) : List ProxyEntry :=
  (splitNl fileContent.data).map fun p => { http := ⟨p⟩, https := ⟨p⟩ }

lemma splitNl_ne_nil (cs : List Char) : splitNl cs ≠ [] := by
  cases cs with
  | nil => simp [splitNl]
  | cons c cs =>
    simp only [splitNl]
    cases splitNl cs with
    | nil => simp
    | cons line rest =>
      by_cases hc : c = '\n' <;> simp [hc]

/-- `Crawler.max_retry` (source comment: maximum number of requests per
url). -/
def max_retry : Nat := 3

/-- Outcome of one HTTP GET attempt inside `Crawler.get_url`.  `timeout`
and `proxyError` are the two caught exception classes; `resp status body`
is a completed response, with `body = none` standing for a body that
fails JSON decoding.  `J` is the type of decoded JSON values. -/
inductive AttemptOutcome (J : Type) where
  | timeout
  | proxyError
  | resp (status : Nat) (body : Option J)
deriving DecidableEq, Repr

/-- An attempt that `get_url` classifies as transient failure: a caught
exception, a non-200 status, or a malformed JSON body. -/
def AttemptOutcome.isFailure {J : Type} : AttemptOutcome J → Bool
  | .timeout => true
  | .proxyError => true
  | .resp status body => status != 200 || body.isNone

/-- Recursion core of `Crawler.get_url`.  `gas` is the invariant
quantity `max_retry - retry`: the guard `retry >= max_retry` in the
source holds exactly when `gas = 0`, and every self-recursive call
increments `retry` and hence decrements `gas`.  Returns the decoded
JSON (or `none` past the retry budget) together with the number of GET
requests actually issued. -/
def get_url_go {J : Type} (outcomes : Nat → AttemptOutcome J) :
    Nat → Nat → Option J × Nat
  | _, 0 => (none, 0)
  | retry, gas + 1 =>
    match outcomes retry with
    | .timeout =>
      let r := get_url_go outcomes (retry + 1) gas
      (r.1, r.2 + 1)
    | .proxyError =>
      let r := get_url_go outcomes (retry + 1) gas
      (r.1, r.2 + 1)
    | .resp status body =>
      if status != 200 then
        let r := get_url_go outcomes (retry + 1) gas
        (r.1, r.2 + 1)
      else
        match body with
        | none =>
          let r := get_url_go outcomes (retry + 1) gas
          (r.1, r.2 + 1)
        | some v => (some v, 1)

/-- Embedding of `Crawler.get_url`.  The network is abstracted as
`outcomes`, giving the result of the attempt made at each retry
counter value.  The pair holds the returned value (`none` models the
Python `return` with no value after `Max retry error`) and the total
number of GET attempts issued. -/
def get_url {J : Type} (outcomes : Nat → AttemptOutcome J)
    (retry : Nat) : Option J × Nat :=
  get_url_go outcomes retry (max_retry - retry)

lemma get_url_go_all_fail {J : Type} (outcomes : Nat → AttemptOutcome J)
    (h : ∀ i, (outcomes i).isFailure = true) :
    ∀ gas retry, get_url_go outcomes retry gas = (none, gas) := by
  intro gas
  induction gas with
  | zero => intro retry; rfl
  | succ g ih =>
    intro retry
    have hr := h retry
    unfold get_url_go
    cases ho : outcomes retry with
    | timeout => simp [ih]
    | proxyError => simp [ih]
    | resp status body =>
      rw [ho] at hr
      simp only [AttemptOutcome.isFailure] at hr
      cases body with
      | none => by_cases hs : status != 200 <;> simp [hs, ih]
      | some v =>
        simp only [Option.isNone_some, Bool.or_false, bne_iff_ne] at hr
        simp [if_pos (bne_iff_ne.mpr hr), ih, hr]

/-- C1: the spec claims 4 total attempts before giving up; the code's
guard `retry >= self.max_retry` with `max_retry = 3` stops after the
attempts made at retry counters 0, 1 and 2, so an all-failing URL
receives exactly 3 GET attempts, not 4 (matching the source comment
"maximum number of requests per url"). -/
theorem get_url_all_fail_three_attempts_not_four :
    get_url (fun _ => (AttemptOutcome.timeout : AttemptOutcome Nat)) 0
      = (none, 3) ∧
    (get_url (fun _ => (AttemptOutcome.timeout : AttemptOutcome Nat)) 0).2 ≠ 4 := by
  constructor
  · rfl
  · intro h
    simp [get_url, get_url_go, max_retry] at h

/-- C1 (amended): if every attempt at a URL fails transiently (timeout,
proxy error, non-200 status, or malformed JSON body), then `get_url`
called with `retry = 0` makes exactly 3 total GET attempts, returns
`none` (Absent), and raises no exception. -/
theorem get_url_all_fail_absent {J : Type}
    (outcomes : Nat → AttemptOutcome J)
    (h : ∀ i, (outcomes i).isFailure = true) :
    get_url outcomes 0 = (none, 3) := by
  have := get_url_go_all_fail outcomes h 3 0
  simpa [get_url, max_retry] using this

/-- Witness for C1's amended theorem at the all-timeout schedule. -/
theorem get_url_all_fail_absent_witness :
    get_url (fun _ => (AttemptOutcome.timeout : AttemptOutcome Nat)) 0
      = (none, 3) :=
  get_url_all_fail_absent (fun _ => AttemptOutcome.timeout) (fun _ => rfl)

/-- C9: the spec claims constructing the Proxy Source with an empty
proxy list raises a configuration error before any network activity.
The code has no such check and cannot have an empty pool: splitting the
empty file content on newlines yields the one-element list containing
the empty string, so construction succeeds with a degenerate
single-entry pool and raises nothing. -/
theorem prepare_proxy_list_empty_no_error :
    prepare_proxy_list "" = [{ http := "", https := "" }] ∧
    (prepare_proxy_list "").length = 1 := by
  exact ⟨rfl, rfl⟩

/-- C9 (amended): constructing the Proxy Source from an empty proxy
file raises no error: splitting the empty file content yields a single
empty-string line, so the pool is a silently degenerate one-element
pool `[{http := "", https := ""}]`, and in general the pool built from
any file content is never empty. -/
theorem prepare_proxy_list_empty_silent_degenerate :
    prepare_proxy_list "" = [{ http := "", https := "" }] ∧
    ∀ content : String, prepare_proxy_list content ≠ [] := by
  refine ⟨rfl, fun content h => ?_⟩
  have hne : splitNl content.data ≠ [] := splitNl_ne_nil _
  simp only [prepare_proxy_list, List.map_eq_nil_iff] at h
  exact hne h

/-! ## src/main.py: location resolution -/

/-- One entry of the `cities` array returned by the city-search
endpoint, with the two fields `_get_city_id` reads. -/
structure CityData where
  id : String
  name : String
deriving DecidableEq, Repr

/-- Embedding of `ParserMixin._get_city_id`, parameterized by the city
list the crawler returned: scan the candidates in order and return the
`id` of the first whose `name` equals the requested name exactly;
raise `AttributeError` (modelled as `Except.error`) when none matches. -/
def get_city_id (city_name : String) : List CityData → Except String String
  | [] => .error (city_name ++ " not found in cities.")
  | city_data :: rest =>
    if city_data.name == city_name then .ok city_data.id
    else get_city_id city_name rest

/-- C7: city resolution returns the id of the first candidate whose
name matches the requested name exactly (case-sensitive string
equality), and fails with the "not found in cities" error exactly when
no candidate matches — including for the empty candidate list. -/
theorem get_city_id_spec :
    (∀ (city_name : String) (pre : List CityData) (c : CityData)
        (post : List CityData),
        (∀ c' ∈ pre, c'.name ≠ city_name) → c.name = city_name →
        get_city_id city_name (pre ++ c :: post) = .ok c.id) ∧
    (∀ (city_name : String) (cities : List CityData),
        get_city_id city_name cities
            = .error (city_name ++ " not found in cities.") ↔
          ∀ c ∈ cities, c.name ≠ city_name) := by
  constructor
  · intro city_name pre c post hpre hc
    induction pre with
    | nil => simp [get_city_id, hc]
    | cons p ps ih =>
      have hp : p.name ≠ city_name := hpre p (by simp)
      simp only [List.cons_append, get_city_id, beq_iff_eq, if_neg hp]
      exact ih fun c' hc' => hpre c' (by simp [hc'])
  · intro city_name cities
    induction cities with
    | nil => simp [get_city_id]
    | cons c cs ih =>
      by_cases hc : c.name = city_name
      · simp [get_city_id, hc]
      · simp [get_city_id, hc, ih]

/-- Witness for C7 at a concrete candidate list: the second entry is
the first exact match, and a list with no match yields the error. -/
theorem get_city_id_spec_witness :
    get_city_id "Springfield"
        [⟨"9", "Shelbyville"⟩, ⟨"77", "Springfield"⟩, ⟨"5", "Springfield"⟩]
      = .ok "77" ∧
    get_city_id "Springfield" [⟨"9", "Shelbyville"⟩]
      = .error ("Springfield" ++ " not found in cities.") :=
  ⟨get_city_id_spec.1 "Springfield" [⟨"9", "Shelbyville"⟩] ⟨"77", "Springfield"⟩
      [⟨"5", "Springfield"⟩] (by decide) (by decide),
    (get_city_id_spec.2 "Springfield" [⟨"9", "Shelbyville"⟩]).mpr (by decide)⟩

/-- Embedding of `ParserMixin._get_store_ids`, parameterized by the
store-id list the crawler returned: raise `AttributeError` when the
list is falsy (empty) or is exactly `[0]`; otherwise return the list
unchanged. -/
def get_store_ids (city_name : String) (store_ids : List Int) :
    Except String (List Int) :=
  if store_ids.isEmpty || (store_ids.length == 1 && store_ids.headD 0 == 0) then
    .error ("Stores not found in " ++ city_name ++ " city.")
  else
    .ok store_ids

/-- C8: store confirmation fails with the "Stores not found" error
exactly when the id list is empty or is the single-element list `[0]`;
any other list is returned unchanged.  In particular `[0]` fails and
`[0, 5]` succeeds unchanged. -/
theorem get_store_ids_spec :
    (∀ (city_name : String) (ids : List Int),
        (∃ e, get_store_ids city_name ids = .error e) ↔
          (ids = [] ∨ ids = [0])) ∧
    (∀ (city_name : String) (ids : List Int),
        ¬(ids = [] ∨ ids = [0]) → get_store_ids city_name ids = .ok ids) ∧
    (∃ e, get_store_ids "Springfield" [0] = Except.error e) ∧
    get_store_ids "Springfield" [0, 5] = .ok [0, 5] := by
  have herr : ∀ (city_name : String) (ids : List Int),
      (ids = [] ∨ ids = [0]) →
      get_store_ids city_name ids
        = .error ("Stores not found in " ++ city_name ++ " city.") := by
    rintro city_name ids (rfl | rfl) <;> rfl
  have hok : ∀ (city_name : String) (ids : List Int),
      ¬(ids = [] ∨ ids = [0]) → get_store_ids city_name ids = .ok ids := by
    intro city_name ids h
    match ids with
    | [] => exact absurd (Or.inl rfl) h
    | [x] =>
      have hx : x ≠ 0 := fun hx0 => h (Or.inr (by rw [hx0]))
      simp [get_store_ids, hx]
    | x :: y :: rest => simp [get_store_ids]
  refine ⟨?_, ?_, ?_, ?_⟩
  · intro city_name ids
    constructor
    · rintro ⟨e, he⟩
      by_contra hno
      rw [hok city_name ids hno] at he
      cases he
    · intro h
      exact ⟨_, herr city_name ids h⟩
  · intro city_name ids h
    exact hok city_name ids h
  · exact ⟨_, herr "Springfield" [0] (Or.inr rfl)⟩
  · exact hok "Springfield" [0, 5] (by decide)

/-- Witness for C8 at concrete inputs: `[0, 5]` is neither empty nor
`[0]`, so it is returned unchanged. -/
theorem get_store_ids_spec_witness :
    get_store_ids "Springfield" [0, 7] = .ok [0, 7] :=
  get_store_ids_spec.2.1 "Springfield" [0, 7] (by decide)

/-! ## src/main.py: category configuration -/

/-- A Python value as far as `ParserMixin._prepare_categories` can
observe it: a string, a list, `None`, or some other non-string value
(represented by an integer tag). -/
inductive PyVal where
  | str (s : String)
  | list (xs : List PyVal)
  | none
  | int (n : Int)

/-- Python `isinstance(v, str)`. -/
def PyVal.isStr : PyVal → Bool
  | .str _ => true
  | _ => false

/-- Embedding of `ParserMixin._prepare_categories`: a list whose single
element is a string is wrapped in a further list; any other list is
checked to contain only strings (raising `AttributeError` otherwise)
and returned unchanged; a plain string becomes a one-element list; any
other value (such as `None`) becomes the empty list. -/
def prepare_categories (config_categories : PyVal) : Except String PyVal :=
  match config_categories with
  | .list xs =>
    if xs.length == 1 && (xs.headD .none).isStr then
      .ok (.list [.list xs])
    else if xs.all PyVal.isStr then
      .ok (.list xs)
    else
      .error "Not correct CATEGORY_NAMES format. Expected list of string(s)"
  | .str s => .ok (.list [.str s])
  | _ => .ok (.list [])

/-- C3 counterexample: the claim says every all-string list input is
passed through unchanged, but the code wraps a one-element string list
in a further list: `["Dogs"]` becomes `[["Dogs"]]`, not `["Dogs"]`. -/
theorem prepare_categories_singleton_not_passthrough :
    prepare_categories (.list [.str "Dogs"])
        = .ok (.list [.list [.str "Dogs"]]) ∧
    prepare_categories (.list [.str "Dogs"]) ≠ .ok (.list [.str "Dogs"]) := by
  constructor
  · rfl
  · intro h
    rw [show prepare_categories (.list [.str "Dogs"])
          = .ok (.list [.list [.str "Dogs"]]) from rfl] at h
    simp at h

/-- C3 (amended): `prepare_categories` normalizes a single string to a
one-element list; passes every all-string list of length other than
one through unchanged; wraps a one-element string list `[s]` into the
nested list `[[s]]`; raises the configuration error for every list
containing a non-string element; and returns the empty list for
`None`. -/
theorem prepare_categories_spec :
    (∀ s : String, prepare_categories (.str s) = .ok (.list [.str s])) ∧
    (∀ xs : List PyVal, xs.all PyVal.isStr = true → xs.length = 1 →
        prepare_categories (.list xs) = .ok (.list [.list xs])) ∧
    (∀ xs : List PyVal, xs.all PyVal.isStr = true → xs.length ≠ 1 →
        prepare_categories (.list xs) = .ok (.list xs)) ∧
    (∀ xs : List PyVal, xs.all PyVal.isStr = false →
        prepare_categories (.list xs)
          = .error "Not correct CATEGORY_NAMES format. Expected list of string(s)") ∧
    prepare_categories .none = .ok (.list []) := by
  refine ⟨fun s => rfl, ?_, ?_, ?_, rfl⟩
  · intro xs hall hlen
    match xs with
    | [x] =>
      have hx : x.isStr = true := by simpa using hall
      simp [prepare_categories, hx]
  · intro xs hall hlen
    have h1 : (xs.length == 1) = false := by
      simpa using hlen
    simp [prepare_categories, h1, hall]
  · intro xs hall
    have hnot : ¬ xs.all PyVal.isStr = true := by simp [hall]
    have h1 : ¬ (xs.length == 1 && (xs.headD .none).isStr) = true := by
      intro hc
      simp only [Bool.and_eq_true, beq_iff_eq] at hc
      obtain ⟨hlen, hhd⟩ := hc
      cases xs with
      | nil => simp at hlen
      | cons x rest =>
        cases rest with
        | nil =>
          have hx : x.isStr = true := by simpa using hhd
          simp [hx] at hall
        | cons y t => simp at hlen
    simp only [prepare_categories]
    rw [if_neg h1, if_neg hnot]

/-- Witness for C3's amended theorem: a two-element all-string list is
passed through unchanged, and a mixed list raises the error. -/
theorem prepare_categories_spec_witness :
    prepare_categories (.list [.str "Dogs", .str "Bowls"])
      = .ok (.list [.str "Dogs", .str "Bowls"]) ∧
    prepare_categories (.list [.str "Dogs", .int 3])
      = .error "Not correct CATEGORY_NAMES format. Expected list of string(s)" :=
  ⟨prepare_categories_spec.2.2.1 [.str "Dogs", .str "Bowls"] (by rfl) (by decide),
    prepare_categories_spec.2.2.2.1 [.str "Dogs", .int 3] (by rfl)⟩

/-! ## src/main.py: product and offer data model -/

/-- One entry of a product's `offers` array, with the two fields the
matcher reads: the offer id and its category chain (an ordered mapping
from depth key to category name, modelled as an association list). -/
structure OfferSummary where
  id : String
  categories_chain : List (String × String)
deriving DecidableEq, Repr

/-- A product as returned by the catalog listing. -/
structure Product where
  id : String
  name : String
  offers : List OfferSummary
deriving DecidableEq, Repr

/-- One entry of `availability_info.offer_store_amount`, with the only
field `_is_target_store` reads. -/
structure StoreAmount where
  address : String
deriving DecidableEq, Repr

/-- The `availability_info` object of an offer-details response. -/
structure AvailabilityInfo where
  offer_store_amount : List StoreAmount
deriving DecidableEq, Repr

/-- An offer-details response, with the fields `_get_offer_details`
reads. -/
structure OfferDetail where
  id : String
  size : String
  retail_price : Int
  discount_price : Int
  availability_info : AvailabilityInfo
deriving DecidableEq, Repr

/-- One row appended to `ParserMixin.result`. -/
structure ResultRow where
  city : String
  city_id : String
  store_address : String
  product_id : String
  product_name : String
  product_size : String
  retail_price : Int
  discount_price : Int
deriving DecidableEq, Repr

/-- Embedding of `ParserMixin._is_target_store`, parameterized by the
configured store address (`configs.STORE_ADDRESS`): true when some
store entry's address contains the configured address, both
lower-cased. -/
def is_target_store (store_address : String) (offer_data : OfferDetail) : Bool :=
  offer_data.availability_info.offer_store_amount.any fun store_data =>
    pyIn (pyLower store_address) (pyLower store_data.address)

/-- Embedding of `ParserMixin._get_offer_categories`: the category
chain of the first offer in the product's `offers` list whose id
matches, or the empty mapping when none matches. -/
def get_offer_categories (offer_id : String) (product_data : Product) :
    List (String × String) :=
  match product_data.offers.find? fun offer_data => offer_data.id == offer_id with
  | some offer_data => offer_data.categories_chain
  | none => []

/-- Embedding of `ParserMixin._is_target_category`, parameterized by
the prepared target categories: vacuously true when no categories are
configured, and otherwise true exactly when every target category
appears among the values of the matching offer's category chain. -/
def is_target_category (target_categories : List String) (offer_id : String)
    (product_data : Product) : Bool :=
  if target_categories.isEmpty then true
  else
    let offer_categories := get_offer_categories offer_id product_data
    target_categories.all fun category =>
      (offer_categories.map Prod.snd).contains category

/-- Example product used to check the matching predicates on the
spec's concrete data. -/
def exampleProduct : Product :=
  { id := "p1"
    name := "Bowl stand"
    offers := [{ id := "77"
                 categories_chain :=
                   [("1", "Dogs"), ("2", "Bowls"), ("3", "Stand Bowls")] }] }

/-- C5: `is_target_category` is true exactly when the target category
path is empty or every required category name appears among the values
of the `categories_chain` of the offer with the matching id in the
product's offer list; on the spec's example chain, target
`["Dogs", "Bowls"]` matches and `["Dogs", "Leashes"]` does not. -/
theorem is_target_category_spec :
    (∀ (target_categories : List String) (offer_id : String)
        (product_data : Product),
        is_target_category target_categories offer_id product_data = true ↔
          (target_categories = [] ∨
            ∀ category ∈ target_categories,
              category ∈ (get_offer_categories offer_id product_data).map
                Prod.snd)) ∧
    is_target_category ["Dogs", "Bowls"] "77" exampleProduct = true ∧
    is_target_category ["Dogs", "Leashes"] "77" exampleProduct = false := by
  refine ⟨?_, by decide, by decide⟩
  intro target_categories offer_id product_data
  by_cases hemp : target_categories = []
  · simp [is_target_category, hemp]
  · have : target_categories.isEmpty = false := by
      simpa [List.isEmpty_iff] using hemp
    simp [is_target_category, this, List.all_eq_true, hemp]

/-- Example offer detail available at the spec's example store
address. -/
def exampleOffer : OfferDetail :=
  { id := "77"
    size := "M"
    retail_price := 100
    discount_price := 90
    availability_info :=
      { offer_store_amount := [{ address := "Moscow, Lenina st 5" }] } }

/-- C6: `is_target_store` is true exactly when some address entry in
the offer's `availability_info.offer_store_amount`, lower-cased,
contains the configured store address, lower-cased; in particular the
address "Moscow, Lenina st 5" matches the configured address
"lenina st 5". -/
theorem is_target_store_spec :
    (∀ (store_address : String) (offer_data : OfferDetail),
        is_target_store store_address offer_data = true ↔
          ∃ store_data ∈ offer_data.availability_info.offer_store_amount,
            pyIn (pyLower store_address) (pyLower store_data.address) = true) ∧
    is_target_store "lenina st 5" exampleOffer = true := by
  refine ⟨?_, by decide⟩
  intro store_address offer_data
  simp [is_target_store, List.any_eq_true]

/-! ## src/main.py: catalog pagination -/

/-- `ParserMixin.product_list_limit` (the class attribute). -/
def product_list_limit : Nat := 100

/-- The catalog-list URL built inside `_prepare_product_list_urls` for
a given limit and offset. -/
def catalog_list_url (limit offset : Nat) : String :=
  "https://www.bethowen.ru/api/local/v1/catalog/list?limit=" ++ toString limit
    ++ "&offset=" ++ toString offset ++ "&sort_type=popular&id[]"

/-- Loop body of `_prepare_product_list_urls`: while `number_products`
is positive, append the URL for the current offset, subtract the
configured limit from `number_products`, and add the literal constant
100 to the offset.  `fuel` bounds the iteration count; every caller
passes `number_products.toNat`, which is enough iterations whenever
`1 ≤ limit` (for `limit = 0` the Python loop would not terminate).
Returns the URL list together with the final value of the
`number_products` field. -/
def product_list_url_loop (limit : Nat) :
    Nat → Int → Nat → List String × Int
  | 0, number_products, _ => ([], number_products)
  | fuel + 1, number_products, offset =>
    if 0 < number_products then
      let r := product_list_url_loop limit fuel (number_products - limit)
        (offset + 100)
      (catalog_list_url limit offset :: r.1, r.2)
    else
      ([], number_products)

/-- Embedding of `ParserMixin._prepare_product_list_urls`,
parameterized by the limit (`product_list_limit`) and the current
value of `self.number_products`.  Returns the generated URL list and
the value left in `self.number_products` after the call. -/
def prepare_product_list_urls (limit : Nat) (number_products : Int) :
    List String × Int :=
  product_list_url_loop limit number_products.toNat number_products 0

/-- C4: the claim says the offset advances by exactly the configured
page size, but the loop adds the literal 100 to the offset while
subtracting the configured limit from the remaining count: with page
size 50 and count 100 the code produces offsets 0 and 100, not 0 and
50.  With the default page size 100 and count 250 it does produce the
three offsets 0, 100, 200 claimed. -/
theorem prepare_product_list_urls_offset_step_fixed :
    (prepare_product_list_urls 50 100).1
        = [catalog_list_url 50 0, catalog_list_url 50 100] ∧
    (prepare_product_list_urls 50 100).1
        ≠ [catalog_list_url 50 0, catalog_list_url 50 50] ∧
    (prepare_product_list_urls 100 250).1
        = [catalog_list_url 100 0, catalog_list_url 100 100,
            catalog_list_url 100 200] := by
  refine ⟨by rfl, ?_, by rfl⟩
  intro h
  rw [show (prepare_product_list_urls 50 100).1
        = [catalog_list_url 50 0, catalog_list_url 50 100] from rfl] at h
  exact absurd h (by decide)

lemma product_list_url_loop_snd_nonpos (limit : Nat) (hlim : 1 ≤ limit) :
    ∀ (fuel : Nat) (number_products : Int) (offset : Nat),
      number_products.toNat ≤ fuel →
      (product_list_url_loop limit fuel number_products offset).2 ≤ 0 := by
  intro fuel
  induction fuel with
  | zero =>
    intro n offset hn
    simp only [product_list_url_loop]
    omega
  | succ f ih =>
    intro n offset hn
    by_cases hpos : 0 < n
    · simp only [product_list_url_loop, if_pos hpos]
      exact ih (n - limit) (offset + 100) (by omega)
    · simp only [product_list_url_loop, if_neg hpos]
      omega

lemma prepare_product_list_urls_nonpos (limit : Nat) (m : Int) (hm : m ≤ 0) :
    (prepare_product_list_urls limit m).1 = [] := by
  have hz : m.toNat = 0 := by omega
  simp only [prepare_product_list_urls, hz, product_list_url_loop]

/-- C10: with the class's `product_list_limit` of 100, one call to
`_prepare_product_list_urls` starting from any positive
`self.number_products` leaves `self.number_products` at or below zero,
so a second call generates no URLs at all: the method consumes the
product count and is not idempotent. -/
theorem prepare_product_list_urls_consumes_count
    (number_products : Int) (h : 0 < number_products) :
    (prepare_product_list_urls 100 number_products).2 ≤ 0 ∧
    (prepare_product_list_urls 100
        (prepare_product_list_urls 100 number_products).2).1 = [] := by
  have h2 : (prepare_product_list_urls 100 number_products).2 ≤ 0 :=
    product_list_url_loop_snd_nonpos 100 (by omega) _ number_products 0
      (le_refl _)
  exact ⟨h2, prepare_product_list_urls_nonpos 100 _ h2⟩

/-- Witness for C10 at the spec's count of 250. -/
theorem prepare_product_list_urls_consumes_count_witness :
    (prepare_product_list_urls 100 250).2 ≤ 0 ∧
    (prepare_product_list_urls 100
        (prepare_product_list_urls 100 250).2).1 = [] :=
  prepare_product_list_urls_consumes_count 250 (by decide)

/-! ## src/main.py: offer fetch and match -/

/-- One matched output row as built inside `_get_offer_details`. -/
def mk_result_row (city city_id store_address : String) (product_data : Product)
    (offer_data : OfferDetail) : ResultRow :=
  { city := city
    city_id := city_id
    store_address := store_address
    product_id := product_data.id
    product_name := product_data.name
    product_size := offer_data.size
    retail_price := offer_data.retail_price
    discount_price := offer_data.discount_price }

/-- Embedding of the loop of `ParserMixin._get_offer_details`,
parameterized by the configuration (`configs.CITY_NAME`,
`self.city_id`, `configs.STORE_ADDRESS`, `self.target_categories`) and
by the list of `get_url` responses for the product's offer URLs, in
iteration order (`none` is an Absent response).  The loop body calls
`self._is_target_store(offer_data)`, which subscripts
`offer_data['availability_info']`; on an Absent (`None`) response this
raises `TypeError`, ending the iteration.  Returns the rows appended
to `self.result` before any such exception, together with a flag that
is true when the `TypeError` was raised. -/
def get_offer_details (city city_id store_address : String)
    (target_categories : List String) (product_data : Product) :
    List (Option OfferDetail) → List ResultRow × Bool
  | [] => ([], false)
  | none :: _ => ([], true)
  | some offer_data :: rest =>
    let r := get_offer_details city city_id store_address target_categories
      product_data rest
    if is_target_store store_address offer_data
        && is_target_category target_categories offer_data.id product_data then
      (mk_result_row city city_id store_address product_data offer_data :: r.1,
        r.2)
    else
      r

/-- C2: the claim says Absent offer responses are omitted before the
store-match and category-match predicates run.  In the code they are
not: `_get_offer_details` passes each raw response to
`_is_target_store`, which subscripts it, so an Absent (`None`)
response raises `TypeError` there (flag `true`), it is never filtered
out, and any offers later in the iteration are lost; a matching offer
placed after an Absent one yields no row, while the same offer alone
yields its row. -/
theorem get_offer_details_absent_not_omitted :
    get_offer_details "Springfield" "77" "lenina st 5" [] exampleProduct
        [none] = ([], true) ∧
    get_offer_details "Springfield" "77" "lenina st 5" [] exampleProduct
        [some exampleOffer]
      = ([mk_result_row "Springfield" "77" "lenina st 5" exampleProduct
            exampleOffer], false) ∧
    get_offer_details "Springfield" "77" "lenina st 5" [] exampleProduct
        [none, some exampleOffer] = ([], true) := by
  refine ⟨rfl, ?_, rfl⟩
  have hstore : is_target_store "lenina st 5" exampleOffer = true := by decide
  simp [get_offer_details, hstore, is_target_category]

end BwnParser
